import Mathlib

/-!
Verification of the `winmenu` Go package (`src/winmenu.go`), a thin binding
over the Windows `user32.dll` menu API.  The package exposes two operations,
`CreateMenu` and `InsertMenuItem`, together with flag constants and the
`MenuItemInfo` structure layout.  The foreign `.Call` boundary is modelled as
an explicit oracle argument returning the `(r1, r2, err)` triple that Go's
`syscall` layer produces; the binding's own computation on either side of that
boundary is embedded faithfully.
-/

namespace Winmenu

/-- Width class of a `MenuItemInfo` field in the Go source: `u32` for
`uint32`-backed fields (`uint32`, `MaskFlag`, `TypeFlag`, `StateFlag`) and
`ptr` for pointer-width fields (`HMenu`, `HBitmap` — both `uintptr` — and the
Go pointers `*uint64`, `*uint16`). -/
inductive FieldWidth where
  | u32
  | ptr
deriving DecidableEq

/-- One field of the `MenuItemInfo` struct: its Go name and its width class. -/
structure FieldDesc where
  name : String
  width : FieldWidth
deriving DecidableEq

/-- The twelve fields of `MenuItemInfo` (src/winmenu.go:176-234), in source
order, with the width class of each field's Go type. -/
def menuItemInfoFields : List FieldDesc :=
  [⟨"cbSize", .u32⟩,
   ⟨"fMask", .u32⟩,
   ⟨"fType", .u32⟩,
   ⟨"fState", .u32⟩,
   ⟨"wID", .u32⟩,
   ⟨"hSubMenu", .ptr⟩,
   ⟨"hbmpChecked", .ptr⟩,
   ⟨"hbmpUnchecked", .ptr⟩,
   ⟨"dwItemData", .ptr⟩,
   ⟨"dwTypeData", .ptr⟩,
   ⟨"cch", .u32⟩,
   ⟨"hbmpItem", .ptr⟩]

/-- Byte size of a field at pointer width `p` (4 or 8): `uint32`-backed fields
occupy 4 bytes; `uintptr` and Go pointers occupy `p` bytes.  On both widths the
alignment of each of these types equals its size, as in the Go ABI. -/
def fieldSize (p : Nat) : FieldWidth → Nat
  | .u32 => 4
  | .ptr => p

/-- Round `off` up to the next multiple of `a`. -/
def alignUp (off a : Nat) : Nat := (off + a - 1) / a * a

/-- Offset one past the last field when the fields are laid out in order, each
at an offset aligned to its own size (the Go / C struct layout rule). -/
def layoutEnd (p : Nat) (fs : List FieldDesc) : Nat :=
  fs.foldl (fun off f => alignUp off (fieldSize p f.width) + fieldSize p f.width) 0

/-- Alignment of the whole struct: the maximum field alignment. -/
def structAlign (p : Nat) (fs : List FieldDesc) : Nat :=
  fs.foldl (fun a f => max a (fieldSize p f.width)) 1

/-- Total byte size of the struct: the end of the last field rounded up to the
struct alignment.  This is what Go's `unsafe.Sizeof` computes. -/
def structSize (p : Nat) (fs : List FieldDesc) : Nat :=
  alignUp (layoutEnd p fs) (structAlign p fs)

/-- `unsafe.Sizeof(MenuItemInfo{})` at pointer width `p`, computed from the
field list rather than hard-coded (src/winmenu.go:250). -/
def sizeofMenuItemInfo (p : Nat) : Nat := structSize p menuItemInfoFields

/-- `HMenu` is a handle to a menu, a `uintptr` in the source; modelled as its
numeric value. -/
abbrev HMenu := Nat

/-- `HBitmap` is a handle to a bitmap, a `uintptr` in the source; modelled as
its numeric value. -/
abbrev HBitmap := Nat

/-- The `MenuItemInfo` struct (src/winmenu.go:176-234), with each field
modelled as its numeric value (for the two Go pointer fields, the pointer's
address value). -/
structure MenuItemInfo where
  cbSize : Nat
  fMask : Nat
  fType : Nat
  fState : Nat
  wID : Nat
  hSubMenu : HMenu
  hbmpChecked : HBitmap
  hbmpUnchecked : HBitmap
  dwItemData : Nat
  dwTypeData : Nat
  cch : Nat
  hbmpItem : HBitmap
deriving DecidableEq

/-- The triple returned by Go's `syscall` `proc.Call`: the primary return
value `r1`, the secondary value `r2`, and the error value `err` (modelled as
its numeric errno). -/
structure SyscallRet where
  r1 : Nat
  r2 : Nat
  err : Nat
deriving DecidableEq

/-- `CreateMenu` (src/winmenu.go:238-241): invokes `procCreateMenu.Call()`
— whose result triple is the argument here — binds only `ret = r1`, and
returns `(HMenu(ret), ret != 0)`. -/
def CreateMenu (ret : SyscallRet) : HMenu × Bool :=
  (ret.r1, ret.r1 != 0)

/-- The argument vector the binding passes to `procInsertMenuItem.Call`
(src/winmenu.go:251): menu handle, item id/position, marshalled by-position
flag, and the descriptor value behind the passed pointer at call time. -/
structure InsertDispatch where
  hMenu : HMenu
  item : Nat
  fByPosition : Nat
  lpmi : MenuItemInfo
deriving DecidableEq

/-- The arguments `InsertMenuItem` dispatches (src/winmenu.go:245-251): the
boolean is marshalled to 1/0, and the descriptor carries `cbSize` stamped with
`uint32(unsafe.Sizeof(*lpmi))` at pointer width `p` just before the call. -/
def insertDispatchArgs (p : Nat) (hMenu : HMenu) (item : Nat)
    (fByPosition : Bool) (lpmi : MenuItemInfo) : InsertDispatch :=
  { hMenu := hMenu
    item := item
    fByPosition := if fByPosition then 1 else 0
    lpmi := { lpmi with cbSize := sizeofMenuItemInfo p } }

/-- `InsertMenuItem` (src/winmenu.go:245-253) at pointer width `p`, with the
foreign call modelled by the oracle `os`.  It dispatches
`insertDispatchArgs`, binds only `ret = r1` of the result triple, and returns
`ret != 0`.  The second component is the descriptor value after the call,
reflecting the in-place `cbSize` store through the pointer. -/
def InsertMenuItem (p : Nat) (os : InsertDispatch → SyscallRet)
    (hMenu : HMenu) (item : Nat) (fByPosition : Bool) (lpmi : MenuItemInfo) :
    Bool × MenuItemInfo :=
  let args := insertDispatchArgs p hMenu item fByPosition lpmi
  ((os args).r1 != 0, args.lpmi)

/-- A Go runtime panic relevant to this binding. -/
inductive GoPanic where
  | nilDereference
deriving DecidableEq

/-- `InsertMenuItem` with the `lpmi *MenuItemInfo` argument modelled as an
optional value: Go's `lpmi.cbSize = ...` store (src/winmenu.go:250) panics
with a nil-pointer dereference when `lpmi` is nil, before the `.Call` on
line 251 is reached. -/
def InsertMenuItemPtr (p : Nat) (os : InsertDispatch → SyscallRet)
    (hMenu : HMenu) (item : Nat) (fByPosition : Bool) :
    Option MenuItemInfo → Except GoPanic (Bool × MenuItemInfo)
  | none => .error .nilDereference
  | some lpmi => .ok (InsertMenuItem p os hMenu item fByPosition lpmi)

/-- src/winmenu.go:105 -/
def MFS_CHECKED : Nat := 0x00000008
/-- src/winmenu.go:108 -/
def MFS_DEFAULT : Nat := 0x00001000
/-- src/winmenu.go:111 -/
def MFS_DISABLED : Nat := 0x00000003
/-- src/winmenu.go:114 -/
def MFS_ENABLED : Nat := 0x00000000
/-- src/winmenu.go:117 -/
def MFS_GRAYED : Nat := 0x00000003
/-- src/winmenu.go:119 -/
def MFS_HILITE : Nat := 0x00000080
/-- src/winmenu.go:122 -/
def MFS_UNCHECKED : Nat := 0x00000000
/-- src/winmenu.go:124 -/
def MFS_UNHILITE : Nat := 0x00000000

/-- The eight exposed `StateFlag` constants (src/winmenu.go:102-125), in
source order. -/
def stateFlagConstants : List (String × Nat) :=
  [("MFS_CHECKED", MFS_CHECKED),
   ("MFS_DEFAULT", MFS_DEFAULT),
   ("MFS_DISABLED", MFS_DISABLED),
   ("MFS_ENABLED", MFS_ENABLED),
   ("MFS_GRAYED", MFS_GRAYED),
   ("MFS_HILITE", MFS_HILITE),
   ("MFS_UNCHECKED", MFS_UNCHECKED),
   ("MFS_UNHILITE", MFS_UNHILITE)]

/-- src/winmenu.go:140 -/
def HBMMENU_MBAR_CLOSE : HBitmap := 5
/-- src/winmenu.go:142 -/
def HBMMENU_MBAR_CLOSE_D : HBitmap := 6
/-- src/winmenu.go:144 -/
def HBMMENU_MBAR_MINIMIZE : HBitmap := 3
/-- src/winmenu.go:146 -/
def HBMMENU_MBAR_MINIMIZE_D : HBitmap := 7
/-- src/winmenu.go:148 -/
def HBMMENU_MBAR_RESTORE : HBitmap := 2
/-- src/winmenu.go:150 -/
def HBMMENU_POPUP_CLOSE : HBitmap := 8
/-- src/winmenu.go:152 -/
def HBMMENU_POPUP_MAXIMIZE : HBitmap := 10
/-- src/winmenu.go:154 -/
def HBMMENU_POPUP_MINIMIZE : HBitmap := 11
/-- src/winmenu.go:156 -/
def HBMMENU_POPUP_RESTORE : HBitmap := 9
/-- src/winmenu.go:158 -/
def HBMMENU_SYSTEM : HBitmap := 1

/-- The reserved system bitmap-handle sentinel constants the binding exposes
(src/winmenu.go:130-159), in source order. -/
def hbmMenuConstants : List (String × HBitmap) :=
  [("HBMMENU_MBAR_CLOSE", HBMMENU_MBAR_CLOSE),
   ("HBMMENU_MBAR_CLOSE_D", HBMMENU_MBAR_CLOSE_D),
   ("HBMMENU_MBAR_MINIMIZE", HBMMENU_MBAR_MINIMIZE),
   ("HBMMENU_MBAR_MINIMIZE_D", HBMMENU_MBAR_MINIMIZE_D),
   ("HBMMENU_MBAR_RESTORE", HBMMENU_MBAR_RESTORE),
   ("HBMMENU_POPUP_CLOSE", HBMMENU_POPUP_CLOSE),
   ("HBMMENU_POPUP_MAXIMIZE", HBMMENU_POPUP_MAXIMIZE),
   ("HBMMENU_POPUP_MINIMIZE", HBMMENU_POPUP_MINIMIZE),
   ("HBMMENU_POPUP_RESTORE", HBMMENU_POPUP_RESTORE),
   ("HBMMENU_SYSTEM", HBMMENU_SYSTEM)]

/-- Spec-side refinement list, written from the spec's words: the sentinels
claimed are exactly the close, minimize and restore buttons for the menu bar
and for the popup (submenu), plus the system icon. -/
def specClaimedSentinelNames : List String :=
  ["HBMMENU_MBAR_CLOSE",
   "HBMMENU_MBAR_MINIMIZE",
   "HBMMENU_MBAR_RESTORE",
   "HBMMENU_POPUP_CLOSE",
   "HBMMENU_POPUP_MINIMIZE",
   "HBMMENU_POPUP_RESTORE",
   "HBMMENU_SYSTEM"]

/-- Amended sentinel list: close, minimize and restore buttons for bar and
popup and the system icon, together with the disabled close and disabled
minimize buttons for the bar and the maximize button for the popup. -/
def amendedSentinelNames : List String :=
  ["HBMMENU_MBAR_CLOSE",
   "HBMMENU_MBAR_CLOSE_D",
   "HBMMENU_MBAR_MINIMIZE",
   "HBMMENU_MBAR_MINIMIZE_D",
   "HBMMENU_MBAR_RESTORE",
   "HBMMENU_POPUP_CLOSE",
   "HBMMENU_POPUP_MAXIMIZE",
   "HBMMENU_POPUP_MINIMIZE",
   "HBMMENU_POPUP_RESTORE",
   "HBMMENU_SYSTEM"]

/-- A concrete descriptor value, used to instantiate universally quantified
theorems at a specific input. -/
def sampleItem : MenuItemInfo :=
  ⟨0, 0, 0, 0, 0, 0, 0, 0, 0, 0, 0, 0⟩

end Winmenu

namespace Winmenu

/-- C1: every `InsertMenuItem` dispatch carries a descriptor whose `cbSize`
field was just stamped with the programmatically computed byte size of
`MenuItemInfo` — regardless of the descriptor's incoming `cbSize` — and that
size is 48 bytes at 4-byte pointer width and 80 bytes at 8-byte pointer
width. -/
theorem insertMenuItem_stamps_exact_size :
    (∀ (p : Nat) (hMenu : HMenu) (item : Nat) (b : Bool) (lpmi : MenuItemInfo),
      (insertDispatchArgs p hMenu item b lpmi).lpmi.cbSize = sizeofMenuItemInfo p)
    ∧ sizeofMenuItemInfo 4 = 48 ∧ sizeofMenuItemInfo 8 = 80 :=
  ⟨fun _ _ _ _ _ => rfl, by decide, by decide⟩

/-- C2: `CreateMenu` returns the raw `r1` of the operating-system call as the
handle, and its success flag is true exactly when that handle is non-zero. -/
theorem createMenu_handle_and_success (ret : SyscallRet) :
    (CreateMenu ret).1 = ret.r1 ∧ ((CreateMenu ret).2 = true ↔ ret.r1 ≠ 0) := by
  refine ⟨rfl, ?_⟩
  simp [CreateMenu]

/-- C3: `InsertMenuItem` reports success exactly when the `r1` value returned
by the dispatched operating-system call is non-zero. -/
theorem insertMenuItem_success_iff (p : Nat) (os : InsertDispatch → SyscallRet)
    (hMenu : HMenu) (item : Nat) (b : Bool) (lpmi : MenuItemInfo) :
    (InsertMenuItem p os hMenu item b lpmi).1 = true
      ↔ (os (insertDispatchArgs p hMenu item b lpmi)).r1 ≠ 0 := by
  simp [InsertMenuItem]

/-- C4: the by-position boolean is marshalled to the numeric value 1 when true
and 0 when false in the dispatched argument vector. -/
theorem insertMenuItem_marshals_byPosition (p : Nat) (hMenu : HMenu)
    (item : Nat) (lpmi : MenuItemInfo) :
    (insertDispatchArgs p hMenu item true lpmi).fByPosition = 1
    ∧ (insertDispatchArgs p hMenu item false lpmi).fByPosition = 0 :=
  ⟨rfl, rfl⟩

/-- C5: `MenuItemInfo` declares exactly twelve fields, in the claimed order,
with the claimed widths: five leading u32 fields, five pointer-width fields,
the u32 text length, and a final pointer-width bitmap handle. -/
theorem menuItemInfo_field_layout :
    menuItemInfoFields.length = 12
    ∧ menuItemInfoFields.map FieldDesc.name
        = ["cbSize", "fMask", "fType", "fState", "wID", "hSubMenu",
           "hbmpChecked", "hbmpUnchecked", "dwItemData", "dwTypeData",
           "cch", "hbmpItem"]
    ∧ menuItemInfoFields.map FieldDesc.width
        = [.u32, .u32, .u32, .u32, .u32, .ptr, .ptr, .ptr, .ptr, .ptr,
           .u32, .ptr] :=
  ⟨rfl, rfl, rfl⟩

/-- C6: both operations surface failure only as a boolean: `CreateMenu`'s
result is unchanged by the `r2` and error components of the call's result
triple, and `InsertMenuItem`'s result is a function of the `r1` component
alone, so two oracles agreeing on `r1` at the dispatched arguments yield
identical results. -/
theorem failures_surface_only_boolean :
    (∀ r1 r2a r2b ea eb, CreateMenu ⟨r1, r2a, ea⟩ = CreateMenu ⟨r1, r2b, eb⟩)
    ∧ (∀ (p : Nat) (os os2 : InsertDispatch → SyscallRet) (hMenu : HMenu)
        (item : Nat) (b : Bool) (lpmi : MenuItemInfo),
        (os (insertDispatchArgs p hMenu item b lpmi)).r1
          = (os2 (insertDispatchArgs p hMenu item b lpmi)).r1 →
        InsertMenuItem p os hMenu item b lpmi
          = InsertMenuItem p os2 hMenu item b lpmi) := by
  constructor
  · intro r1 r2a r2b ea eb
    rfl
  · intro p os os2 hMenu item b lpmi h
    simp only [InsertMenuItem, h]

/-- Witness for C6: at pointer width 8 and two concrete oracles that agree on
`r1` but differ on `r2` and the error value, `InsertMenuItem` returns the same
result. -/
theorem failures_surface_only_boolean_witness :
    InsertMenuItem 8 (fun _ => ⟨1, 2, 3⟩) 0 0 true sampleItem
      = InsertMenuItem 8 (fun _ => ⟨1, 0, 0⟩) 0 0 true sampleItem :=
  failures_surface_only_boolean.2 8 (fun _ => ⟨1, 2, 3⟩) (fun _ => ⟨1, 0, 0⟩)
    0 0 true sampleItem rfl

/-- C7: the binding mutates only the descriptor's `cbSize` field: every other
descriptor field survives `InsertMenuItem` unchanged, and the menu handle and
item argument are dispatched exactly as given. -/
theorem insertMenuItem_frame (p : Nat) (os : InsertDispatch → SyscallRet)
    (hMenu : HMenu) (item : Nat) (b : Bool) (lpmi : MenuItemInfo) :
    ((InsertMenuItem p os hMenu item b lpmi).2.fMask = lpmi.fMask
      ∧ (InsertMenuItem p os hMenu item b lpmi).2.fType = lpmi.fType
      ∧ (InsertMenuItem p os hMenu item b lpmi).2.fState = lpmi.fState
      ∧ (InsertMenuItem p os hMenu item b lpmi).2.wID = lpmi.wID
      ∧ (InsertMenuItem p os hMenu item b lpmi).2.hSubMenu = lpmi.hSubMenu
      ∧ (InsertMenuItem p os hMenu item b lpmi).2.hbmpChecked = lpmi.hbmpChecked
      ∧ (InsertMenuItem p os hMenu item b lpmi).2.hbmpUnchecked = lpmi.hbmpUnchecked
      ∧ (InsertMenuItem p os hMenu item b lpmi).2.dwItemData = lpmi.dwItemData
      ∧ (InsertMenuItem p os hMenu item b lpmi).2.dwTypeData = lpmi.dwTypeData
      ∧ (InsertMenuItem p os hMenu item b lpmi).2.cch = lpmi.cch
      ∧ (InsertMenuItem p os hMenu item b lpmi).2.hbmpItem = lpmi.hbmpItem)
    ∧ (insertDispatchArgs p hMenu item b lpmi).hMenu = hMenu
    ∧ (insertDispatchArgs p hMenu item b lpmi).item = item := by
  simp [InsertMenuItem, insertDispatchArgs]

/-- C8 counterexample: the binding exposes `HBMMENU_POPUP_MAXIMIZE` — the
maximize button for the popup — which is not among the close, minimize,
restore and system-icon sentinels the claim lists, so the exposed set is not
exactly the claimed one. -/
theorem hbmMenu_sentinels_counterexample :
    ("HBMMENU_POPUP_MAXIMIZE", (10 : HBitmap)) ∈ hbmMenuConstants
    ∧ "HBMMENU_POPUP_MAXIMIZE" ∉ specClaimedSentinelNames := by
  decide

/-- C8 (amended): the exposed sentinel constants are exactly the close,
minimize and restore buttons for the bar and the popup, the disabled close
and disabled minimize buttons for the bar, the maximize button for the popup,
and the system icon; in particular every sentinel the spec lists is exposed. -/
theorem hbmMenu_sentinels_exact :
    hbmMenuConstants.map Prod.fst = amendedSentinelNames
    ∧ ∀ n ∈ specClaimedSentinelNames, n ∈ hbmMenuConstants.map Prod.fst := by
  exact ⟨rfl, by decide⟩

/-- Witness for the amended C8 theorem: the system-icon sentinel is in the
spec's list and is exposed by the binding. -/
theorem hbmMenu_sentinels_exact_witness :
    "HBMMENU_SYSTEM" ∈ hbmMenuConstants.map Prod.fst :=
  hbmMenu_sentinels_exact.2 "HBMMENU_SYSTEM" (by decide)

/-- C9: a nil descriptor makes `InsertMenuItem` panic with a nil-pointer
dereference while stamping `cbSize`, before any dispatch — the outcome is the
same for every oracle, so the operating system is never reached — while a
non-nil descriptor always yields an ordinary boolean result. -/
theorem insertMenuItem_nil_descriptor (p : Nat)
    (os os2 : InsertDispatch → SyscallRet) (hMenu : HMenu) (item : Nat)
    (b : Bool) :
    InsertMenuItemPtr p os hMenu item b none
        = Except.error GoPanic.nilDereference
    ∧ InsertMenuItemPtr p os hMenu item b none
        = InsertMenuItemPtr p os2 hMenu item b none
    ∧ ∀ lpmi, InsertMenuItemPtr p os hMenu item b (some lpmi)
        = Except.ok (InsertMenuItem p os hMenu item b lpmi) :=
  ⟨rfl, rfl, fun _ => rfl⟩

/-- C10: the eight `StateFlag` constants take only five distinct values:
`MFS_DISABLED` and `MFS_GRAYED` are both 0x3, and `MFS_ENABLED`,
`MFS_UNCHECKED` and `MFS_UNHILITE` are all 0. -/
theorem stateFlag_constants_values :
    stateFlagConstants.length = 8
    ∧ (stateFlagConstants.map Prod.snd).dedup.length = 5
    ∧ MFS_DISABLED = MFS_GRAYED
    ∧ MFS_DISABLED = 0x3
    ∧ MFS_ENABLED = 0 ∧ MFS_UNCHECKED = 0 ∧ MFS_UNHILITE = 0 := by
  refine ⟨rfl, by decide, rfl, rfl, rfl, rfl, rfl⟩

end Winmenu
